import Mathlib

set_option linter.unusedVariables false

/-!
Verification development for `csv_to_sqlite.py`.

The program loads a delimited text file into a SQLite database and prints a
formatted report.  We give a shallow embedding of its data path: header
sanitization (line 42), SQL statement text construction (lines 46-58), the
row-width normalization loop (lines 62-66), the loader
`create_table_from_csv` (lines 26-86), the validator `validate_data`
(lines 89-115), the reporter `print_all_records` (lines 118-148) and the
driver `main` (lines 151-194), over an explicit model of a SQLite
connection with a staged (uncommitted) and a committed database state.
-/

/-- Python `str.isalnum`, modelled exactly on the codepoint range
U+0000..U+00FF: ASCII digits `0-9`, ASCII letters `A-Z` and `a-z`, the
Latin-1 letters `ª µ º` and `À..ÿ` except `×` and `÷`, and the Latin-1
digit-like characters `² ³ ¹ ¼ ½ ¾`.  Codepoints above U+00FF (further
Unicode letters and digits) do not occur in this development and are
modelled as not alphanumeric.  Mirrors `c.isalnum()` at line 42. -/
def pyIsAlnum (c : Char) : Bool :=
  (48 ≤ c.toNat && c.toNat ≤ 57) ||
  (65 ≤ c.toNat && c.toNat ≤ 90) ||
  (97 ≤ c.toNat && c.toNat ≤ 122) ||
  (c.toNat = 0xAA) || (c.toNat = 0xB5) || (c.toNat = 0xBA) ||
  (c.toNat = 0xB2) || (c.toNat = 0xB3) || (c.toNat = 0xB9) ||
  (0xBC ≤ c.toNat && c.toNat ≤ 0xBE) ||
  (0xC0 ≤ c.toNat && c.toNat ≤ 0xFF && !(c.toNat = 0xD7) && !(c.toNat = 0xF7))

/-- Python `str.isspace`, modelled exactly on the codepoint range
U+0000..U+00FF: `\t \n \v \f \r`, the separators U+001C..U+001F, the space,
U+0085 and U+00A0.  Codepoints above U+00FF do not occur in this
development and are modelled as not whitespace.  Used by `str.strip()`
at line 42. -/
def pyIsSpace (c : Char) : Bool :=
  (9 ≤ c.toNat && c.toNat ≤ 13) ||
  (28 ≤ c.toNat && c.toNat ≤ 32) ||
  (c.toNat = 0x85) || (c.toNat = 0xA0)

/-- One step of the generator expression at line 42:
`c if c.isalnum() else '_'`. -/
def sanChar (c : Char) : Char :=
  if pyIsAlnum c then c else '_'

/-- Python `str.strip()` on a list of characters: drop leading and trailing
whitespace characters. -/
def pyStrip (l : List Char) : List Char :=
  ((l.dropWhile pyIsSpace).reverse.dropWhile pyIsSpace).reverse

/-- Line 42 of `csv_to_sqlite.py`:
`clean_header = ''.join(c if c.isalnum() else '_' for c in header.strip())`. -/
def sanitize (s : String) : String :=
  String.mk ((pyStrip s.data).map sanChar)

/-- Lines 40-43: the sanitized header list `clean_headers`. -/
def clean_headers (headers : List String) : List String :=
  headers.map sanitize

/-- ASCII-only alphanumeric test: `0-9`, `A-Z`, `a-z`. -/
def isAsciiAlnum (c : Char) : Bool :=
  (48 ≤ c.toNat && c.toNat ≤ 57) ||
  (65 ≤ c.toNat && c.toNat ≤ 90) ||
  (97 ≤ c.toNat && c.toNat ≤ 122)

/-- Stated from the spec's words, for comparison with `sanitize` (claim C3):
strip leading/trailing whitespace, then replace every character that is not
an ASCII letter or digit with an underscore. -/
def sanitizeAsciiSpec (s : String) : String :=
  String.mk ((pyStrip s.data).map (fun c => if isAsciiAlnum c then c else '_'))

/-- Line 46: `columns_def = ', '.join([f'"{header}" TEXT' for header in clean_headers])`. -/
def columns_def (hs : List String) : String :=
  String.intercalate ", " (hs.map (fun h => "\"" ++ h ++ "\" TEXT"))

/-- Line 47: the `CREATE TABLE IF NOT EXISTS` statement text. -/
def createTableSql (tableName : String) (hs : List String) : String :=
  "CREATE TABLE IF NOT EXISTS " ++ tableName ++ " (" ++ columns_def hs ++ ")"

/-- Line 50: the `DROP TABLE IF EXISTS` statement text. -/
def dropTableSql (tableName : String) : String :=
  "DROP TABLE IF EXISTS " ++ tableName

/-- Line 57: `placeholders = ', '.join(['?' for _ in clean_headers])`. -/
def placeholders (hs : List String) : String :=
  String.intercalate ", " (hs.map (fun _ => "?"))

/-- Line 58: `insert_sql = f'INSERT INTO {table_name} VALUES ({placeholders})'`
(the braces here describe the original f-string). -/
def insertSql (tableName : String) (hs : List String) : String :=
  "INSERT INTO " ++ tableName ++ " VALUES (" ++ placeholders hs ++ ")"

/-- The single destination table (`csv_data`): its column names, in order,
all of SQLite type TEXT, and its rows in insertion order. -/
structure Table where
  cols : List String
  rows : List (List String)
  deriving Repr, DecidableEq

/-- A SQLite connection: `staged` is the state seen through this connection
(including the pending implicit transaction); `committed` is the durable
state — what the on-disk file holds if the connection closes now.  With
the default isolation level of the `sqlite3` module, an implicit
transaction is opened only for data-modification statements such as
INSERT: those stay staged until `conn.commit()` copies them to the durable
state, and closing without commit discards them.  DDL statements (DROP
TABLE, CREATE TABLE) run in autocommit mode and update the durable state
immediately. -/
structure Conn where
  staged : Option Table
  committed : Option Table
  deriving Repr, DecidableEq

/-- An executed SQL statement: its query text and its bound parameters. -/
structure Stmt where
  sql : String
  params : List String
  deriving Repr, DecidableEq

/-- Line 50: effect of `DROP TABLE IF EXISTS csv_data`.  The `sqlite3`
module opens implicit transactions only for data-modification statements,
and no transaction is pending at line 50 (the connection has executed
nothing yet), so this DDL statement autocommits: the drop is durable
immediately, even if the load later fails. -/
def execDrop (conn : Conn) : Conn :=
  ⟨none, none⟩

/-- Line 51: effect of `CREATE TABLE IF NOT EXISTS csv_data (...)`.  SQLite
rejects a column list that is empty (syntax error) or contains duplicate
column names; with `IF NOT EXISTS`, an already-present table is kept.
Like the drop at line 50, this DDL statement autocommits (no transaction
is pending when it runs): the new empty table is durable immediately,
before any row is inserted, so it survives a later failure of the insert
batch. -/
def execCreate (hs : List String) (conn : Conn) : Except String Conn :=
  if hs.isEmpty then Except.error "syntax error"
  else if hs.Nodup then
    match conn.staged with
    | some _ => Except.ok conn
    | none => Except.ok ⟨some ⟨hs, []⟩, some ⟨hs, []⟩⟩
  else Except.error "duplicate column name"

/-- Line 68: effect of `cursor.execute(insert_sql, row)`.  SQLite rejects an
insert into a missing table or with the wrong number of values. -/
def execInsert (row : List String) (conn : Conn) : Except String Conn :=
  match conn.staged with
  | none => Except.error "no such table"
  | some t =>
    if row.length = t.cols.length then
      Except.ok { conn with staged := some ⟨t.cols, t.rows ++ [row]⟩ }
    else Except.error "table has a different number of columns"

/-- Line 71: `conn.commit()` makes the staged state durable. -/
def commitConn (conn : Conn) : Conn :=
  { conn with committed := conn.staged }

/-- The outcome of opening and sniffing the input file, as seen by
`create_table_from_csv` (lines 29-37): the file may be absent
(`FileNotFoundError` at line 29), the sniffer may fail to detect a
delimiter (`csv.Error` at line 34), or the file parses into a list of
records, each a list of raw string fields. -/
inductive LoadInput where
  | missing
  | badFormat
  | ok (records : List (List String))
  deriving Repr, DecidableEq

/-- The result of `create_table_from_csv`: the connection after the call,
the returned pair (`clean_headers` or `None`, row count), and the trace of
successfully executed SQL statements. -/
structure LoadResult where
  conn : Conn
  headers : Option (List String)
  rowCount : Nat
  stmts : List Stmt
  deriving Repr, DecidableEq

/-- Lines 62-64: `while len(row) < len(clean_headers): row.append('')`. -/
def padLoop (k : Nat) (row : List String) : List String :=
  if row.length < k then padLoop k (row ++ [""]) else row
termination_by k - row.length
decreasing_by simp_wf; omega

/-- Lines 62-66: pad the row with empty strings up to the header count,
then `row = row[:len(clean_headers)]`. -/
def normalizeRow (k : Nat) (row : List String) : List String :=
  (padLoop k row).take k

/-- The state of the insertion loop of lines 60-69. -/
structure InsertOut where
  conn : Conn
  stmts : List Stmt
  count : Nat
  failed : Bool
  deriving Repr, DecidableEq

/-- Lines 60-69: normalize and insert each data row in order, counting the
successful inserts.  `ioFail` injects an environmental SQLite error
(e.g. a disk error) before inserting the row at that index; `failed`
records that an exception was raised (to be caught at line 81). -/
def insertRows (tableName : String) (hs : List String) (ioFail : Option Nat)
    (conn : Conn) : List (List String) → InsertOut
  | [] => ⟨conn, [], 0, false⟩
  | r :: rs =>
    if ioFail = some 0 then ⟨conn, [], 0, true⟩
    else
      match execInsert (normalizeRow hs.length r) conn with
      | Except.error _ => ⟨conn, [], 0, true⟩
      | Except.ok c2 =>
        let rest := insertRows tableName hs (ioFail.map (· - 1)) c2 rs
        ⟨rest.conn, ⟨insertSql tableName hs, normalizeRow hs.length r⟩ :: rest.stmts,
          rest.count + 1, rest.failed⟩

/-- Lines 26-86, `create_table_from_csv`: sanitize the headers, drop and
recreate the destination table, insert every data row (width-normalized),
commit, and return `(clean_headers, row_count)`.  Every exception path
(missing file, undetectable delimiter, empty file — `StopIteration` from
`next(reader)` caught by the catch-all —, SQLite errors from table
creation or insertion) is caught inside the function and yields
`(None, 0)` without committing the insert batch — though the drop and
create of lines 50-51, having autocommitted, stay durable even then. -/
def create_table_from_csv (conn : Conn) (tableName : String)
    (input : LoadInput) (ioFail : Option Nat) : LoadResult :=
  match input with
  | LoadInput.missing => ⟨conn, none, 0, []⟩
  | LoadInput.badFormat => ⟨conn, none, 0, []⟩
  | LoadInput.ok [] => ⟨conn, none, 0, []⟩
  | LoadInput.ok (hdr :: data) =>
    let hs := clean_headers hdr
    let c1 := execDrop conn
    match execCreate hs c1 with
    | Except.error _ => ⟨c1, none, 0, [⟨dropTableSql tableName, []⟩]⟩
    | Except.ok c2 =>
      let r := insertRows tableName hs ioFail c2 data
      if r.failed then
        ⟨r.conn, none, 0,
          ⟨dropTableSql tableName, []⟩ :: ⟨createTableSql tableName hs, []⟩ :: r.stmts⟩
      else
        ⟨commitConn r.conn, some hs, r.count,
          ⟨dropTableSql tableName, []⟩ :: ⟨createTableSql tableName hs, []⟩ :: r.stmts⟩

/-- One data row is completely empty when every listed header's column holds
the empty string — the `WHERE "h1" = "" AND "h2" = "" AND ...` condition of
line 100, with each column reference resolved by name. -/
def rowEmptyAt (cols : List String) (headers : List String)
    (r : List String) : Bool :=
  headers.all (fun h => r.getD (cols.indexOf h) "" == "")

/-- What `validate_data` reports on success: the total row count, the count
of completely empty rows, whether the empty-row warning was printed
(line 103-104), and the sampled first five rows (line 107). -/
structure ValidateOut where
  total : Nat
  emptyRows : Nat
  warned : Bool
  sample : List (List String)
  deriving Repr, DecidableEq

/-- Lines 89-115, `validate_data`: three read-only queries.  Returns `none`
(Python `False`) when a SQLite error is caught: the table is missing, the
`WHERE` clause is malformed because the header list is empty, a listed
header names no column, or an environmental read error (`ioFail`)
occurs. -/
def validate_data (conn : Conn) (headers : List String) (ioFail : Bool) :
    Option ValidateOut :=
  if ioFail then none
  else
    match conn.staged with
    | none => none
    | some t =>
      if headers.isEmpty then none
      else if headers.all (fun h => t.cols.contains h) then
        some ⟨t.rows.length,
          (t.rows.filter (fun r => rowEmptyAt t.cols headers r)).length,
          decide (0 < (t.rows.filter (fun r => rowEmptyAt t.cols headers r)).length),
          t.rows.take 5⟩
      else none

/-- Python's format specifier of width 15 applied to a string at
lines 129 and 142 (`f-string` padding): left-justify and pad with spaces
to a minimum width of 15; a longer string is kept whole. -/
def fmt15 (s : String) : String :=
  s ++ String.mk (List.replicate (15 - s.length) ' ')

/-- Lines 129 and 142: format a list of fields and join with `" | "`. -/
def formatRow15 (fields : List String) : String :=
  String.intercalate " | " (fields.map fmt15)

/-- What `print_all_records` prints: the header line, the underline of
`-` characters (line 131), the record lines in storage order, and the
trailing printed count. -/
structure ReportOut where
  headerL : String
  underL : String
  records : List String
  total : Nat
  deriving Repr, DecidableEq

/-- Lines 118-148, `print_all_records`: `SELECT *`, print the formatted
header and underline, then one formatted line per row, then the count.
Returns `none` when a SQLite error is caught (missing table or an
environmental read error); the error is printed and swallowed. -/
def print_all_records (conn : Conn) (headers : List String) (ioFail : Bool) :
    Option ReportOut :=
  if ioFail then none
  else
    match conn.staged with
    | none => none
    | some t =>
      some ⟨formatRow15 headers,
        String.mk (List.replicate (formatRow15 headers).length '-'),
        t.rows.map formatRow15,
        t.rows.length⟩

/-- The three pipeline stages called inside the `try` block of `main`
(lines 176-190). -/
inductive Stage where
  | load
  | validate
  | report
  deriving Repr, DecidableEq

/-- Observable events of one run of `main`, in order of occurrence. -/
inductive Ev where
  | fileMissing
  | connFail
  | acquire
  | loadFail
  | loadOk (rows : Nat)
  | valFail
  | valOk (total : Nat) (warned : Bool)
  | reported (count : Nat)
  | close
  deriving Repr, DecidableEq

/-- The environment of one run of `main`: whether the input path exists
(line 160), whether `sqlite3.connect` succeeds (line 172), the outcome of
opening and parsing the input file, injected environmental SQLite errors
for the three stages, an injected unanticipated exception (such as
`KeyboardInterrupt`) escaping a stage at its entry, and the committed
content of a pre-existing database file at the output path (`none` when
the file is absent or empty). -/
structure Input where
  fileExists : Bool
  connOk : Bool
  load : LoadInput
  ioFailAfter : Option Nat
  valIoFail : Bool
  repIoFail : Bool
  raiseUnexpected : Option Stage
  init : Option Table
  deriving Repr

/-- Outcome of the `try` block of `main` (lines 176-190): the events, the
connection state on leaving the block, the rendered report if reporting
ran, and whether an unanticipated exception escaped the block (to
propagate after the `finally`). -/
structure BodyOut where
  events : List Ev
  conn : Conn
  report : Option ReportOut
  exc : Bool
  deriving Repr

/-- Lines 176-190, the `try` block of `main`: load, then validate, then
report, returning early when the loader yields `None` headers or when
validation fails. -/
def mainBody (inp : Input) (conn : Conn) : BodyOut :=
  if inp.raiseUnexpected = some Stage.load then ⟨[], conn, none, true⟩
  else
    let lr := create_table_from_csv conn "csv_data" inp.load inp.ioFailAfter
    match lr.headers with
    | none => ⟨[Ev.loadFail], lr.conn, none, false⟩
    | some hs =>
      if inp.raiseUnexpected = some Stage.validate then
        ⟨[Ev.loadOk lr.rowCount], lr.conn, none, true⟩
      else
        match validate_data lr.conn hs inp.valIoFail with
        | none => ⟨[Ev.loadOk lr.rowCount, Ev.valFail], lr.conn, none, false⟩
        | some v =>
          if inp.raiseUnexpected = some Stage.report then
            ⟨[Ev.loadOk lr.rowCount, Ev.valOk v.total v.warned], lr.conn, none, true⟩
          else
            match print_all_records lr.conn hs inp.repIoFail with
            | none => ⟨[Ev.loadOk lr.rowCount, Ev.valOk v.total v.warned], lr.conn, none, false⟩
            | some rep =>
              ⟨[Ev.loadOk lr.rowCount, Ev.valOk v.total v.warned, Ev.reported rep.total],
                lr.conn, some rep, false⟩

/-- The observable outcome of one run of `main`: the event trace, the
durable database content after the run (what the `.db` file holds),
the rendered report, whether `sqlite3.connect` ran (it creates the
database file when absent), and whether an unanticipated exception
propagated out of the run. -/
structure RunResult where
  events : List Ev
  persisted : Option Table
  report : Option ReportOut
  connected : Bool
  exc : Bool
  deriving Repr

/-- Lines 151-194, `main`: check that the input path exists, connect to the
database, and run load/validate/report inside `try ... finally conn.close()`.
Closing discards uncommitted staged changes; the durable state is the
committed one.  (Named `mainRun` because `main` is reserved.) -/
def mainRun (inp : Input) : RunResult :=
  if !inp.fileExists then ⟨[Ev.fileMissing], inp.init, none, false, false⟩
  else if !inp.connOk then ⟨[Ev.connFail], inp.init, none, false, false⟩
  else
    let b := mainBody inp ⟨inp.init, inp.init⟩
    ⟨Ev.acquire :: b.events ++ [Ev.close], b.conn.committed, b.report, true, b.exc⟩

/-! ### Helper lemmas -/

lemma padLoop_eq_append (k : Nat) (row : List String) :
    padLoop k row = row ++ List.replicate (k - row.length) "" := by
  generalize hn : k - row.length = n
  induction n generalizing row with
  | zero =>
    rw [padLoop]
    have hk : ¬ row.length < k := by omega
    simp [hk]
  | succ n ih =>
    have hlt : row.length < k := by omega
    rw [padLoop]
    simp only [hlt, if_true]
    rw [ih (row ++ [""]) (by simp; omega)]
    simp [List.append_assoc, List.replicate_succ]

lemma normalizeRow_length (k : Nat) (row : List String) :
    (normalizeRow k row).length = k := by
  simp [normalizeRow, padLoop_eq_append]
  omega

lemma normalizeRow_of_le (k : Nat) (row : List String) (h : row.length ≤ k) :
    normalizeRow k row = row ++ List.replicate (k - row.length) "" := by
  unfold normalizeRow
  rw [padLoop_eq_append]
  apply List.take_of_length_le
  simp
  omega

lemma normalizeRow_of_ge (k : Nat) (row : List String) (h : k ≤ row.length) :
    normalizeRow k row = row.take k := by
  unfold normalizeRow
  rw [padLoop_eq_append, Nat.sub_eq_zero_of_le h]
  simp

lemma normalizeRow_of_eq (k : Nat) (row : List String) (h : row.length = k) :
    normalizeRow k row = row := by
  rw [normalizeRow_of_ge k row (le_of_eq h.symm), List.take_of_length_le (le_of_eq h)]

lemma normalizeRow_getD (k : Nat) (row : List String) (j : Nat)
    (hjk : j < k) (hjr : j < row.length) :
    (normalizeRow k row).getD j "" = row.getD j "" := by
  rcases Nat.le_total row.length k with h | h
  · rw [normalizeRow_of_le k row h]
    exact List.getD_append row _ "" j hjr
  · rw [normalizeRow_of_ge k row h]
    simp [List.getD_eq_getElem?_getD, List.getElem?_take, hjk]

lemma pyIsAlnum_not_space (c : Char) (h : pyIsAlnum c = true) :
    pyIsSpace c = false := by
  revert h
  simp [pyIsAlnum, pyIsSpace]
  omega

lemma pyIsSpace_sanChar (c : Char) : pyIsSpace (sanChar c) = false := by
  unfold sanChar
  by_cases h : pyIsAlnum c
  · simpa [h] using pyIsAlnum_not_space c h
  · simp [h]
    decide

lemma sanChar_idem (c : Char) : sanChar (sanChar c) = sanChar c := by
  unfold sanChar
  by_cases h : pyIsAlnum c
  · simp [h]
  · simp [h]

lemma dropWhile_eq_self_of {α : Type} (p : α → Bool) (l : List α)
    (h : ∀ c ∈ l, p c = false) : l.dropWhile p = l := by
  cases l with
  | nil => rfl
  | cons a as => simp [List.dropWhile_cons, h a (List.mem_cons_self a as)]

lemma pyStrip_eq_self (l : List Char) (h : ∀ c ∈ l, pyIsSpace c = false) :
    pyStrip l = l := by
  unfold pyStrip
  rw [dropWhile_eq_self_of pyIsSpace l h]
  rw [dropWhile_eq_self_of pyIsSpace l.reverse (fun c hc => h c (List.mem_reverse.mp hc))]
  exact List.reverse_reverse l

lemma mem_pyStrip (l : List Char) (c : Char) (h : c ∈ pyStrip l) : c ∈ l := by
  unfold pyStrip at h
  have h1 := List.mem_reverse.mp h
  have h2 := (List.dropWhile_sublist pyIsSpace).subset h1
  have h3 := List.mem_reverse.mp h2
  exact (List.dropWhile_sublist pyIsSpace).subset h3

lemma sanChar_eq_of_ascii (c : Char) (h : c.toNat < 128) :
    sanChar c = (if isAsciiAlnum c then c else '_') := by
  have halnum : pyIsAlnum c = isAsciiAlnum c := by
    cases hb : isAsciiAlnum c
    · simp only [isAsciiAlnum] at hb
      simp only [pyIsAlnum]
      simp at hb ⊢
      omega
    · simp only [isAsciiAlnum] at hb
      simp only [pyIsAlnum]
      simp at hb ⊢
      omega
  rw [sanChar, halnum]

lemma execInsert_full (hs : List String) (cm : Option Table)
    (acc : List (List String)) (row : List String) (h : row.length = hs.length) :
    execInsert row ⟨some ⟨hs, acc⟩, cm⟩ = Except.ok ⟨some ⟨hs, acc ++ [row]⟩, cm⟩ := by
  simp [execInsert, h]

lemma insertRows_ok (tn : String) (hs : List String) (cm : Option Table)
    (acc : List (List String)) (rows : List (List String)) :
    insertRows tn hs none ⟨some ⟨hs, acc⟩, cm⟩ rows =
      ⟨⟨some ⟨hs, acc ++ rows.map (normalizeRow hs.length)⟩, cm⟩,
        rows.map (fun r => ⟨insertSql tn hs, normalizeRow hs.length r⟩),
        rows.length, false⟩ := by
  induction rows generalizing acc with
  | nil => simp [insertRows]
  | cons r rs ih =>
    rw [insertRows]
    rw [execInsert_full hs cm acc (normalizeRow hs.length r) (normalizeRow_length hs.length r)]
    simp only [reduceCtorEq, if_false, show Option.map (fun x => x - 1) (none : Option Nat) = none from rfl]
    rw [ih (acc ++ [normalizeRow hs.length r])]
    simp [List.append_assoc]

lemma execInsert_committed (row : List String) (conn c2 : Conn)
    (h : execInsert row conn = Except.ok c2) : c2.committed = conn.committed := by
  obtain ⟨st, cm⟩ := conn
  cases st with
  | none => simp [execInsert] at h
  | some t =>
    by_cases hl : row.length = t.cols.length
    · simp [execInsert, hl] at h
      subst h
      rfl
    · simp [execInsert, hl] at h

lemma insertRows_committed (tn : String) (hs : List String) (ioFail : Option Nat)
    (conn : Conn) (rows : List (List String)) :
    (insertRows tn hs ioFail conn rows).conn.committed = conn.committed := by
  induction rows generalizing conn ioFail with
  | nil => simp [insertRows]
  | cons r rs ih =>
    rw [insertRows]
    by_cases h0 : ioFail = some 0
    · simp [h0]
    · simp only [h0, if_false]
      cases hins : execInsert (normalizeRow hs.length r) conn with
      | error e => rfl
      | ok c2 =>
        simp only []
        rw [ih]
        exact execInsert_committed _ conn c2 hins

lemma insertRows_not_failed (tn : String) (hs : List String) (ioFail : Option Nat)
    (cm : Option Table) (acc : List (List String)) (rows : List (List String))
    (h : (insertRows tn hs ioFail ⟨some ⟨hs, acc⟩, cm⟩ rows).failed = false) :
    insertRows tn hs ioFail ⟨some ⟨hs, acc⟩, cm⟩ rows =
      ⟨⟨some ⟨hs, acc ++ rows.map (normalizeRow hs.length)⟩, cm⟩,
        rows.map (fun r => ⟨insertSql tn hs, normalizeRow hs.length r⟩),
        rows.length, false⟩ := by
  induction rows generalizing acc ioFail with
  | nil => simp [insertRows]
  | cons r rs ih =>
    rw [insertRows] at h ⊢
    by_cases h0 : ioFail = some 0
    · simp [h0] at h
    · simp only [h0, if_false] at h ⊢
      rw [execInsert_full hs cm acc (normalizeRow hs.length r)
        (normalizeRow_length hs.length r)] at h ⊢
      simp only [] at h ⊢
      rw [ih (ioFail.map (· - 1)) (acc ++ [normalizeRow hs.length r]) h]
      simp [List.append_assoc]

lemma clean_isEmpty_false (hdr : List String) (h : clean_headers hdr ≠ []) :
    (clean_headers hdr).isEmpty = false := by
  simp [List.isEmpty_iff, h]

lemma create_ok (conn : Conn) (tn : String) (hdr : List String)
    (data : List (List String)) (h1 : clean_headers hdr ≠ [])
    (h2 : (clean_headers hdr).Nodup) :
    create_table_from_csv conn tn (LoadInput.ok (hdr :: data)) none =
      ⟨⟨some ⟨clean_headers hdr, data.map (normalizeRow (clean_headers hdr).length)⟩,
         some ⟨clean_headers hdr, data.map (normalizeRow (clean_headers hdr).length)⟩⟩,
        some (clean_headers hdr), data.length,
        ⟨dropTableSql tn, []⟩ :: ⟨createTableSql tn (clean_headers hdr), []⟩ ::
          data.map (fun r =>
            ⟨insertSql tn (clean_headers hdr),
              normalizeRow (clean_headers hdr).length r⟩)⟩ := by
  have hcreate : execCreate (clean_headers hdr) (execDrop conn) =
      Except.ok ⟨some ⟨clean_headers hdr, []⟩, some ⟨clean_headers hdr, []⟩⟩ := by
    simp [execCreate, execDrop, clean_isEmpty_false hdr h1, h2]
  unfold create_table_from_csv
  simp only [hcreate]
  rw [insertRows_ok tn (clean_headers hdr) (some ⟨clean_headers hdr, []⟩) [] data]
  simp [commitConn]

lemma create_fail_committed (conn : Conn) (tn : String) (input : LoadInput)
    (ioFail : Option Nat)
    (h : (create_table_from_csv conn tn input ioFail).headers = none) :
    (create_table_from_csv conn tn input ioFail).conn.committed = conn.committed ∨
    (create_table_from_csv conn tn input ioFail).conn.committed = none ∨
    ∃ hdr data, input = LoadInput.ok (hdr :: data) ∧
      (create_table_from_csv conn tn input ioFail).conn.committed =
        some ⟨clean_headers hdr, []⟩ := by
  cases input with
  | missing => exact Or.inl rfl
  | badFormat => exact Or.inl rfl
  | ok records =>
    cases records with
    | nil => exact Or.inl rfl
    | cons hdr data =>
      simp only [create_table_from_csv] at h ⊢
      cases hc : execCreate (clean_headers hdr) (execDrop conn) with
      | error e =>
        simp only [hc, execDrop]
        simp
      | ok c2 =>
        simp only [hc] at h ⊢
        by_cases hf : (insertRows tn (clean_headers hdr) ioFail c2 data).failed
        · simp only [hf, if_true]
          rw [insertRows_committed]
          have hc2 : c2.committed = some ⟨clean_headers hdr, []⟩ := by
            unfold execCreate execDrop at hc
            by_cases he : (clean_headers hdr).isEmpty
            · simp [he] at hc
            · by_cases hn : (clean_headers hdr).Nodup
              · simp [he, hn] at hc
                rw [← hc]
              · simp [he, hn] at hc
          exact Or.inr (Or.inr ⟨hdr, data, rfl, hc2⟩)
        · simp only [hf, if_false] at h
          simp at h

lemma create_headers_some (conn : Conn) (tn : String) (input : LoadInput)
    (ioFail : Option Nat) (hs : List String)
    (h : (create_table_from_csv conn tn input ioFail).headers = some hs) :
    ∃ hdr data, input = LoadInput.ok (hdr :: data) ∧ hs = clean_headers hdr ∧
      (create_table_from_csv conn tn input ioFail).conn =
        ⟨some ⟨hs, data.map (normalizeRow hs.length)⟩,
         some ⟨hs, data.map (normalizeRow hs.length)⟩⟩ ∧
      (create_table_from_csv conn tn input ioFail).rowCount = data.length := by
  cases input with
  | missing => simp [create_table_from_csv] at h
  | badFormat => simp [create_table_from_csv] at h
  | ok records =>
    cases records with
    | nil => simp [create_table_from_csv] at h
    | cons hdr data =>
      refine ⟨hdr, data, rfl, ?_⟩
      simp only [create_table_from_csv] at h ⊢
      cases hc : execCreate (clean_headers hdr) (execDrop conn) with
      | error e => simp [hc] at h
      | ok c2 =>
        simp only [hc] at h ⊢
        by_cases hf : (insertRows tn (clean_headers hdr) ioFail c2 data).failed
        · simp [hf] at h
        · simp only [hf, if_false] at h ⊢
          simp at h
          subst h
          have hc2 : c2 = ⟨some ⟨clean_headers hdr, []⟩, some ⟨clean_headers hdr, []⟩⟩ := by
            unfold execCreate execDrop at hc
            by_cases he : (clean_headers hdr).isEmpty
            · simp [he] at hc
            · by_cases hn : (clean_headers hdr).Nodup
              · simp [he, hn] at hc
                rw [← hc]
              · simp [he, hn] at hc
          subst hc2
          rw [insertRows_not_failed tn (clean_headers hdr) ioFail
            (some ⟨clean_headers hdr, []⟩) [] data (by simpa using hf)]
          simp [commitConn]

lemma validate_ok (hs : List String) (rows : List (List String)) (cm : Option Table)
    (h : hs ≠ []) :
    validate_data ⟨some ⟨hs, rows⟩, cm⟩ hs false =
      some ⟨rows.length, (rows.filter (fun r => rowEmptyAt hs hs r)).length,
        decide (0 < (rows.filter (fun r => rowEmptyAt hs hs r)).length),
        rows.take 5⟩ := by
  have hall : hs.all (fun x => hs.contains x) = true := by
    simp [List.all_eq_true]
  simp [validate_data, List.isEmpty_iff, h, hall]

lemma mainBody_conn (inp : Input) (conn : Conn) :
    (mainBody inp conn).conn = conn ∨
    (mainBody inp conn).conn =
      (create_table_from_csv conn "csv_data" inp.load inp.ioFailAfter).conn := by
  simp only [mainBody]
  split
  · left; rfl
  · split
    · right; rfl
    · split
      · right; rfl
      · split
        · right; rfl
        · split
          · right; rfl
          · split
            · right; rfl
            · right; rfl

lemma mainBody_events_clean (inp : Input) (conn : Conn) :
    Ev.acquire ∉ (mainBody inp conn).events ∧ Ev.close ∉ (mainBody inp conn).events := by
  simp only [mainBody]
  split
  · simp
  · split
    · simp
    · split
      · simp
      · split
        · simp
        · split
          · simp
          · split
            · simp
            · simp

lemma mainRun_success (hdr : List String) (data : List (List String))
    (init : Option Table) (h1 : clean_headers hdr ≠ [])
    (h2 : (clean_headers hdr).Nodup) :
    mainRun ⟨true, true, LoadInput.ok (hdr :: data), none, false, false, none, init⟩ =
      ⟨[Ev.acquire, Ev.loadOk data.length,
          Ev.valOk data.length
            (decide (0 < ((data.map (normalizeRow (clean_headers hdr).length)).filter
              (fun r => rowEmptyAt (clean_headers hdr) (clean_headers hdr) r)).length)),
          Ev.reported data.length, Ev.close],
        some ⟨clean_headers hdr, data.map (normalizeRow (clean_headers hdr).length)⟩,
        some ⟨formatRow15 (clean_headers hdr),
          String.mk (List.replicate (formatRow15 (clean_headers hdr)).length '-'),
          (data.map (normalizeRow (clean_headers hdr).length)).map formatRow15,
          data.length⟩,
        true, false⟩ := by
  have hload := create_ok ⟨init, init⟩ "csv_data" hdr data h1 h2
  have hval := validate_ok (clean_headers hdr)
    (data.map (normalizeRow (clean_headers hdr).length))
    (some ⟨clean_headers hdr, data.map (normalizeRow (clean_headers hdr).length)⟩) h1
  simp only [mainRun, mainBody]
  simp only [Bool.not_true, reduceCtorEq, if_false, Bool.false_eq_true]
  simp only [hload]
  simp only [hval, print_all_records]
  simp [List.length_map]

/-! ### Claim theorems -/

/-- Claim C7: sanitization is idempotent — for every header string,
applying the sanitization function to an already-sanitized name yields the
same name: `sanitize (sanitize h) = sanitize h`. -/
theorem c7_sanitize_idempotent (h : String) : sanitize (sanitize h) = sanitize h := by
  unfold sanitize
  have hmem : ∀ c ∈ (pyStrip h.data).map sanChar, pyIsSpace c = false := by
    intro c hc
    obtain ⟨a, ha, rfl⟩ := List.mem_map.mp hc
    exact pyIsSpace_sanChar a
  rw [show (String.mk ((pyStrip h.data).map sanChar)).data =
    (pyStrip h.data).map sanChar from rfl]
  rw [pyStrip_eq_self _ hmem]
  rw [List.map_map]
  congr 1
  exact List.map_congr_left (fun c hc => sanChar_idem c)

/-- Claim C3 (counterexample): the claim says every character that is not
an ASCII letter or digit is replaced with an underscore, but the code keeps
the non-ASCII letter `é` (Python's `str.isalnum` is Unicode-aware), while
the claim's ASCII rule would produce an underscore. -/
theorem c3_sanitize_counterexample :
    sanitize "é" = "é" ∧ sanitizeAsciiSpec "é" = "_" ∧
    sanitize "é" ≠ sanitizeAsciiSpec "é" := by
  refine ⟨?_, ?_, ?_⟩ <;> decide

/-- Claim C3 (amended): for every raw header string consisting of ASCII
characters, sanitization strips leading/trailing whitespace and then
replaces every character that is not an ASCII letter or digit with an
underscore (non-ASCII alphanumeric characters are kept by the code, so the
ASCII rule holds only on ASCII input); and the header row
`"First Name,E-Mail!"` sanitizes to `["First_Name", "E_Mail_"]`. -/
theorem c3_sanitize_ascii (s : String) (hascii : ∀ c ∈ s.data, c.toNat < 128) :
    sanitize s = sanitizeAsciiSpec s ∧
    clean_headers ["First Name", "E-Mail!"] = ["First_Name", "E_Mail_"] := by
  constructor
  · unfold sanitize sanitizeAsciiSpec
    congr 1
    apply List.map_congr_left
    intro c hc
    exact sanChar_eq_of_ascii c (hascii c (mem_pyStrip s.data c hc))
  · decide

/-- Witness for `c3_sanitize_ascii` at the concrete header `"First Name"`. -/
theorem c3_sanitize_ascii_witness :
    sanitize "First Name" = sanitizeAsciiSpec "First Name" ∧
    clean_headers ["First Name", "E-Mail!"] = ["First_Name", "E_Mail_"] :=
  c3_sanitize_ascii "First Name" (by decide)

lemma normalizeRow_eval (k : Nat) (row : List String) :
    normalizeRow k row = (row ++ List.replicate (k - row.length) "").take k := by
  unfold normalizeRow
  rw [padLoop_eq_append]

/-- Claim C1: for every data record loaded, the stored row has exactly
`len(schema)` fields — the stored rows are precisely the width-normalized
source rows, where a row with fewer fields than the header is right-padded
with empty strings up to the schema width, a row with more fields is
right-truncated to the schema width, and a row with exactly `len(schema)`
fields is stored unchanged. -/
theorem c1_row_width_invariant (conn : Conn) (tn : String) (hdr : List String)
    (data : List (List String)) (h1 : clean_headers hdr ≠ [])
    (h2 : (clean_headers hdr).Nodup) :
    ((create_table_from_csv conn tn (LoadInput.ok (hdr :: data)) none).conn.staged =
      some ⟨clean_headers hdr, data.map (normalizeRow (clean_headers hdr).length)⟩) ∧
    (∀ row : List String,
      (normalizeRow (clean_headers hdr).length row).length = (clean_headers hdr).length) ∧
    (∀ row : List String, row.length < (clean_headers hdr).length →
      normalizeRow (clean_headers hdr).length row =
        row ++ List.replicate ((clean_headers hdr).length - row.length) "") ∧
    (∀ row : List String, (clean_headers hdr).length < row.length →
      normalizeRow (clean_headers hdr).length row = row.take (clean_headers hdr).length) ∧
    (∀ row : List String, row.length = (clean_headers hdr).length →
      normalizeRow (clean_headers hdr).length row = row) := by
  refine ⟨?_, fun row => normalizeRow_length _ row,
    fun row hl => normalizeRow_of_le _ row (le_of_lt hl),
    fun row hl => normalizeRow_of_ge _ row (le_of_lt hl),
    fun row he => normalizeRow_of_eq _ row he⟩
  rw [create_ok conn tn hdr data h1 h2]

/-- Witness for `c1_row_width_invariant` on the spec's scenario input. -/
theorem c1_row_width_invariant_witness :
    (create_table_from_csv ⟨none, none⟩ "csv_data"
        (LoadInput.ok [["a","b"], ["1","2"], ["3"], ["4","5","6"]]) none).conn.staged =
      some ⟨["a","b"], [["1","2"], ["3",""], ["4","5"]]⟩ :=
  ((c1_row_width_invariant ⟨none, none⟩ "csv_data" ["a","b"]
    [["1","2"], ["3"], ["4","5","6"]] (by decide) (by decide)).1).trans
    (by simp only [List.map_cons, List.map_nil, normalizeRow_eval]; decide)

/-- Claim C9: row insertion is parameterized — the executed statement trace
shows every insert uses the same query text, whose content depends only on
the table name and the number of schema columns, never on the row's
values; field values (including ones containing quotes or SQL fragments)
appear only in the bound-parameter list. -/
theorem c9_parameterized_insert (conn : Conn) (tn : String) (hdr : List String)
    (data : List (List String)) (h1 : clean_headers hdr ≠ [])
    (h2 : (clean_headers hdr).Nodup) :
    ((create_table_from_csv conn tn (LoadInput.ok (hdr :: data)) none).stmts =
      ⟨dropTableSql tn, []⟩ :: ⟨createTableSql tn (clean_headers hdr), []⟩ ::
        data.map (fun r => ⟨insertSql tn (clean_headers hdr),
          normalizeRow (clean_headers hdr).length r⟩)) ∧
    (∀ s ∈ ((create_table_from_csv conn tn (LoadInput.ok (hdr :: data)) none).stmts).drop 2,
      s.sql = insertSql tn (clean_headers hdr)) ∧
    (∀ (tn' : String) (hs1 hs2 : List String), hs1.length = hs2.length →
      insertSql tn' hs1 = insertSql tn' hs2) := by
  have hmapconst : ∀ (l : List String),
      l.map (fun _ => ("?" : String)) = List.replicate l.length "?" := by
    intro l
    induction l with
    | nil => rfl
    | cons a as ih => simp [List.replicate_succ, ih]
  refine ⟨?_, ?_, ?_⟩
  · rw [create_ok conn tn hdr data h1 h2]
  · rw [create_ok conn tn hdr data h1 h2]
    intro s hs
    simp only [List.drop_succ_cons, List.drop_zero] at hs
    obtain ⟨r, hr, rfl⟩ := List.mem_map.mp hs
    rfl
  · intro tn' hs1 hs2 hlen
    unfold insertSql placeholders
    rw [hmapconst hs1, hmapconst hs2, hlen]

/-- Witness for `c9_parameterized_insert`: two rows of different content
(one holding a SQL fragment) produce the same insert query text, with the
values only in the parameter lists. -/
theorem c9_parameterized_insert_witness :
    (create_table_from_csv ⟨none, none⟩ "csv_data"
        (LoadInput.ok [["a","b"], ["x","y"], ["a'b; DROP TABLE csv_data; --"]]) none).stmts =
      [⟨"DROP TABLE IF EXISTS csv_data", []⟩,
       ⟨"CREATE TABLE IF NOT EXISTS csv_data (\"a\" TEXT, \"b\" TEXT)", []⟩,
       ⟨"INSERT INTO csv_data VALUES (?, ?)", ["x","y"]⟩,
       ⟨"INSERT INTO csv_data VALUES (?, ?)", ["a'b; DROP TABLE csv_data; --", ""]⟩] :=
  ((c9_parameterized_insert ⟨none, none⟩ "csv_data" ["a","b"]
    [["x","y"], ["a'b; DROP TABLE csv_data; --"]] (by decide) (by decide)).1).trans
    (by simp only [List.map_cons, List.map_nil, normalizeRow_eval]; decide)

/-- Claim C2: for every input with N data rows that loads successfully,
running the Reporter after the Loader prints exactly N record lines, one
per source row in original input order (the records are the formatted
width-normalized source rows, in order), the trailing printed count equals
N, and each stored value keeps the column position of its source field
(header-to-column mapping preserved). -/
theorem c2_load_report_roundtrip (hdr : List String) (data : List (List String))
    (init : Option Table) (h1 : clean_headers hdr ≠ [])
    (h2 : (clean_headers hdr).Nodup) :
    ((mainRun ⟨true, true, LoadInput.ok (hdr :: data), none, false, false, none, init⟩).report =
      some ⟨formatRow15 (clean_headers hdr),
        String.mk (List.replicate (formatRow15 (clean_headers hdr)).length '-'),
        data.map (fun r => formatRow15 (normalizeRow (clean_headers hdr).length r)),
        data.length⟩) ∧
    ((mainRun ⟨true, true, LoadInput.ok (hdr :: data), none, false, false, none, init⟩).persisted =
      some ⟨clean_headers hdr, data.map (normalizeRow (clean_headers hdr).length)⟩) ∧
    (∀ r : List String, ∀ j : Nat, j < (clean_headers hdr).length → j < r.length →
      (normalizeRow (clean_headers hdr).length r).getD j "" = r.getD j "") := by
  rw [mainRun_success hdr data init h1 h2]
  refine ⟨?_, rfl, fun r j hjk hjr => normalizeRow_getD _ r j hjk hjr⟩
  simp [List.map_map]

/-- Witness for `c2_load_report_roundtrip` on the spec's scenario input. -/
theorem c2_load_report_roundtrip_witness :
    ((mainRun ⟨true, true, LoadInput.ok [["a","b"], ["1","2"], ["3"], ["4","5","6"]],
        none, false, false, none, none⟩).report =
      some ⟨formatRow15 ["a","b"],
        String.mk (List.replicate (formatRow15 ["a","b"]).length '-'),
        ["1               | 2              ", "3               |                ",
         "4               | 5              "], 3⟩) ∧
    ((mainRun ⟨true, true, LoadInput.ok [["a","b"], ["1","2"], ["3"], ["4","5","6"]],
        none, false, false, none, none⟩).persisted =
      some ⟨["a","b"], [["1","2"], ["3",""], ["4","5"]]⟩) := by
  have h := c2_load_report_roundtrip ["a","b"] [["1","2"], ["3"], ["4","5","6"]] none
    (by decide) (by decide)
  refine ⟨h.1.trans ?_, h.2.1.trans ?_⟩
  · simp only [List.map_cons, List.map_nil, normalizeRow_eval]
    decide
  · simp only [List.map_cons, List.map_nil, normalizeRow_eval]
    decide

/-- Claim C10 (counterexample): a header-only input whose delimiter is
detectable can still fail to load — the header row
`"First Name,First-Name"` sanitizes to two identical column names, the
CREATE TABLE of line 51 fails with a duplicate column name, and the
Loader returns `(None, 0)` instead of succeeding: the run goes from the
load failure straight to Close. -/
theorem c10_duplicate_header_counterexample :
    clean_headers ["First Name", "First-Name"] = ["First_Name", "First_Name"] ∧
    ((create_table_from_csv ⟨none, none⟩ "csv_data"
        (LoadInput.ok [["First Name", "First-Name"]]) none).headers = none) ∧
    ((create_table_from_csv ⟨none, none⟩ "csv_data"
        (LoadInput.ok [["First Name", "First-Name"]]) none).rowCount = 0) ∧
    ((mainRun ⟨true, true, LoadInput.ok [["First Name", "First-Name"]], none, false, false,
        none, none⟩).events = [Ev.acquire, Ev.loadFail, Ev.close]) := by
  refine ⟨?_, ?_, ?_, ?_⟩ <;> decide

/-- Claim C10 (amended): for an input consisting of only a header line
with no data lines, given the delimiter is detectable from that sample,
the header row is nonempty, and the sanitized header names are pairwise
distinct (duplicate sanitized names make the CREATE TABLE of line 51
fail, so the Loader does not succeed on them), the Loader succeeds and
returns the sanitized schema with a row count of 0, the destination table
exists with one TEXT column per header and no rows, validation reports 0
total rows and emits no empty-row warning, and the report prints zero
record lines with a trailing count of 0. -/
theorem c10_header_only_run (hdr : List String) (init : Option Table)
    (h1 : clean_headers hdr ≠ []) (h2 : (clean_headers hdr).Nodup) :
    ((mainRun ⟨true, true, LoadInput.ok [hdr], none, false, false, none, init⟩).events =
      [Ev.acquire, Ev.loadOk 0, Ev.valOk 0 false, Ev.reported 0, Ev.close]) ∧
    ((mainRun ⟨true, true, LoadInput.ok [hdr], none, false, false, none, init⟩).persisted =
      some ⟨clean_headers hdr, []⟩) ∧
    ((mainRun ⟨true, true, LoadInput.ok [hdr], none, false, false, none, init⟩).report =
      some ⟨formatRow15 (clean_headers hdr),
        String.mk (List.replicate (formatRow15 (clean_headers hdr)).length '-'), [], 0⟩) ∧
    ((create_table_from_csv ⟨init, init⟩ "csv_data" (LoadInput.ok [hdr]) none).headers =
      some (clean_headers hdr)) ∧
    ((create_table_from_csv ⟨init, init⟩ "csv_data" (LoadInput.ok [hdr]) none).rowCount = 0) ∧
    ((create_table_from_csv ⟨init, init⟩ "csv_data" (LoadInput.ok [hdr]) none).stmts =
      [⟨dropTableSql "csv_data", []⟩,
       ⟨createTableSql "csv_data" (clean_headers hdr), []⟩]) := by
  have hm := mainRun_success hdr [] init h1 h2
  have hl := create_ok ⟨init, init⟩ "csv_data" hdr [] h1 h2
  rw [hm]
  refine ⟨by simp, rfl, rfl, ?_, ?_, ?_⟩ <;> simp [hl]

/-- Witness for `c10_header_only_run` at a concrete header-only input. -/
theorem c10_header_only_run_witness :
    ((mainRun ⟨true, true, LoadInput.ok [["a","b"]], none, false, false, none, none⟩).events =
      [Ev.acquire, Ev.loadOk 0, Ev.valOk 0 false, Ev.reported 0, Ev.close]) ∧
    ((mainRun ⟨true, true, LoadInput.ok [["a","b"]], none, false, false, none, none⟩).persisted =
      some ⟨["a","b"], []⟩) := by
  have h := c10_header_only_run ["a","b"] none (by decide) (by decide)
  exact ⟨h.1, h.2.1.trans (by decide)⟩

/-- Claim C8: if the input file path does not exist, the run aborts with
the input-not-found error before any storage is touched — `sqlite3.connect`
never runs (so no database file is created on disk), no handle is
acquired, nothing is loaded or reported, and the on-disk state is left
exactly as it was. -/
theorem c8_missing_input_aborts (inp : Input) (h : inp.fileExists = false) :
    mainRun inp = ⟨[Ev.fileMissing], inp.init, none, false, false⟩ := by
  simp [mainRun, h]

/-- Witness for `c8_missing_input_aborts` at a concrete missing-file run. -/
theorem c8_missing_input_aborts_witness :
    mainRun ⟨false, true, LoadInput.missing, none, false, false, none, none⟩ =
      ⟨[Ev.fileMissing], none, none, false, false⟩ :=
  c8_missing_input_aborts ⟨false, true, LoadInput.missing, none, false, false, none, none⟩ rfl

/-- Claim C6 (counterexample): the claim says every field is padded or
truncated to exactly 15 display characters, but the format specifier `:15`
only pads to a minimum width and never truncates — a stored 16-character
field is printed as a 16-character record line. -/
theorem c6_fixed_width_counterexample :
    print_all_records ⟨some ⟨["h"], [["0123456789ABCDEF"]]⟩, none⟩ ["h"] false =
      some ⟨fmt15 "h", String.mk (List.replicate 15 '-'), ["0123456789ABCDEF"], 1⟩ ∧
    (fmt15 "0123456789ABCDEF").length = 16 ∧
    ("0123456789ABCDEF" : String).length ≠ 15 := by
  refine ⟨?_, ?_, ?_⟩ <;> decide

/-- Claim C6 (amended): in the rendered report every field (header and
data) is left-justified and padded with spaces to a minimum of 15 display
characters — a field of 15 or more characters is printed whole, not
truncated — fields on a line are joined by the separator `" | "`, and the
header line is underlined by a line of `-` characters whose length equals
the header line's length. -/
theorem c6_report_layout (conn : Conn) (t : Table) (headers : List String)
    (hst : conn.staged = some t) :
    (print_all_records conn headers false =
      some ⟨String.intercalate " | " (headers.map fmt15),
        String.mk (List.replicate
          (String.intercalate " | " (headers.map fmt15)).length '-'),
        t.rows.map (fun r => String.intercalate " | " (r.map fmt15)),
        t.rows.length⟩) ∧
    (∀ s : String, s.length ≤ 15 → (fmt15 s).length = 15) ∧
    (∀ s : String, 15 ≤ s.length → fmt15 s = s) ∧
    (∀ rep : ReportOut, print_all_records conn headers false = some rep →
      rep.underL.length = rep.headerL.length) := by
  have hrep : print_all_records conn headers false =
      some ⟨formatRow15 headers,
        String.mk (List.replicate (formatRow15 headers).length '-'),
        t.rows.map formatRow15, t.rows.length⟩ := by
    simp [print_all_records, hst]
  refine ⟨?_, ?_, ?_, ?_⟩
  · rw [hrep]
    simp [formatRow15]
  · intro s hs
    unfold fmt15
    rw [String.length_append]
    simp
    omega
  · intro s hs
    unfold fmt15
    rw [Nat.sub_eq_zero_of_le hs]
    simp
  · intro rep h
    rw [hrep] at h
    injection h with h
    rw [← h]
    simp

/-- Witness for `c6_report_layout` at a concrete one-column table. -/
theorem c6_report_layout_witness :
    print_all_records ⟨some ⟨["h"], [["x"]]⟩, none⟩ ["h"] false =
      some ⟨String.intercalate " | " (["h"].map fmt15),
        String.mk (List.replicate
          (String.intercalate " | " (["h"].map fmt15)).length '-'),
        [String.intercalate " | " (["x"].map fmt15)], 1⟩ :=
  (c6_report_layout ⟨some ⟨["h"], [["x"]]⟩, none⟩ ⟨["h"], [["x"]]⟩ ["h"] rfl).1

/-- Claim C4 (counterexample): the claim says exactly one storage handle
is acquired per run, but a run whose input path does not exist returns
before `sqlite3.connect` and acquires no handle at all. -/
theorem c4_acquire_counterexample :
    (mainRun ⟨false, false, LoadInput.missing, none, false, false, none, none⟩).events.count
      Ev.acquire = 0 := by
  decide

/-- Claim C4 (amended): at most one storage handle is acquired per run,
and in every run that reaches the Load stage (input path exists and the
connection succeeds) exactly one handle is acquired and it is released
exactly once, as the last action of the run, on every control path out of
Load/Validate/Report — success, load failure, validation failure, or an
unexpected exception inside those stages. -/
theorem c4_scoped_release (inp : Input) :
    ((mainRun inp).events.count Ev.acquire ≤ 1) ∧
    (inp.fileExists = true → inp.connOk = true →
      (mainRun inp).events.count Ev.acquire = 1 ∧
      (mainRun inp).events.count Ev.close = 1 ∧
      (mainRun inp).events.getLast? = some Ev.close) := by
  obtain ⟨hacq, hcls⟩ := mainBody_events_clean inp ⟨inp.init, inp.init⟩
  by_cases hf : inp.fileExists = true
  · by_cases hc : inp.connOk = true
    · have hmain : (mainRun inp).events =
          Ev.acquire :: (mainBody inp ⟨inp.init, inp.init⟩).events ++ [Ev.close] := by
        simp [mainRun, hf, hc]
      have h1 : (mainRun inp).events.count Ev.acquire = 1 := by
        rw [hmain, List.count_append, List.count_cons_self,
          List.count_eq_zero.mpr hacq]
        decide
      have h2 : (mainRun inp).events.count Ev.close = 1 := by
        rw [hmain, List.count_append,
          List.count_cons_of_ne (by simp), List.count_eq_zero.mpr hcls]
        decide
      have h3 : (mainRun inp).events.getLast? = some Ev.close := by
        rw [hmain, List.getLast?_concat]
      exact ⟨le_of_eq h1, fun _ _ => ⟨h1, h2, h3⟩⟩
    · have hfb : inp.connOk = false := by
        cases h : inp.connOk
        · rfl
        · exact absurd h hc
      have hmain : mainRun inp = ⟨[Ev.connFail], inp.init, none, false, false⟩ := by
        simp [mainRun, hf, hfb]
      rw [hmain]
      exact ⟨by simp [List.count_cons], fun _ hcc => absurd hcc hc⟩
  · have hfb : inp.fileExists = false := by
      cases h : inp.fileExists
      · rfl
      · exact absurd h hf
    have hmain : mainRun inp = ⟨[Ev.fileMissing], inp.init, none, false, false⟩ := by
      simp [mainRun, hfb]
    rw [hmain]
    exact ⟨by simp [List.count_cons], fun hff _ => absurd hff hf⟩

/-- Witness for `c4_scoped_release` at a concrete failing-load run. -/
theorem c4_scoped_release_witness :
    ((mainRun ⟨true, true, LoadInput.badFormat, none, false, false, none, none⟩).events.count
        Ev.acquire = 1) ∧
    ((mainRun ⟨true, true, LoadInput.badFormat, none, false, false, none, none⟩).events.count
        Ev.close = 1) ∧
    ((mainRun ⟨true, true, LoadInput.badFormat, none, false, false, none, none⟩).events.getLast? =
      some Ev.close) :=
  (c4_scoped_release ⟨true, true, LoadInput.badFormat, none, false, false, none, none⟩).2 rfl rfl

/-- Claim C5 (counterexample): table creation and the row insertions are
not committed together — the DROP and CREATE of lines 50-51 autocommit on
their own, before the insert batch.  A load that fails before its first
insert (an environmental SQLite error) durably destroys the pre-existing
table and leaves a fresh empty `csv_data` behind: the persisted state
after this failing load is neither the pre-run state nor untouched, so
the claim's atomicity sentence fails. -/
theorem c5_ddl_autocommit_counterexample :
    ((mainRun ⟨true, true, LoadInput.ok [["a","b"], ["1","2"]], some 0, false, false, none,
        some ⟨["old"], [["v"]]⟩⟩).events = [Ev.acquire, Ev.loadFail, Ev.close]) ∧
    ((mainRun ⟨true, true, LoadInput.ok [["a","b"], ["1","2"]], some 0, false, false, none,
        some ⟨["old"], [["v"]]⟩⟩).persisted = some ⟨["a","b"], []⟩) ∧
    ((mainRun ⟨true, true, LoadInput.ok [["a","b"], ["1","2"]], some 0, false, false, none,
        some ⟨["old"], [["v"]]⟩⟩).persisted ≠ some ⟨["old"], [["v"]]⟩) := by
  refine ⟨?_, ?_, ?_⟩ <;> decide

/-- Claim C5 (amended): when the Loader fails the run transitions directly
to Close without executing validation or reporting, and when the Validator
fails it transitions to Close without reporting.  The table creation of
lines 50-51 autocommits on its own, but all row insertions are committed
together at the end of the batch, so the persisted table is never
partially populated: after any run without an injected unanticipated
exception the persisted state is the pre-run state, or no table at all
(the drop autocommitted and creation failed), or the created table still
empty (creation autocommitted and the insert batch failed and was rolled
back at close), or the complete table holding every width-normalized data
row. -/
theorem c5_failure_aborts_atomic (inp : Input) (hf : inp.fileExists = true)
    (hc : inp.connOk = true) (hx : inp.raiseUnexpected = none) :
    ((create_table_from_csv ⟨inp.init, inp.init⟩ "csv_data" inp.load
        inp.ioFailAfter).headers = none →
      (mainRun inp).events = [Ev.acquire, Ev.loadFail, Ev.close] ∧
      (mainRun inp).report = none) ∧
    (∀ hs : List String,
      (create_table_from_csv ⟨inp.init, inp.init⟩ "csv_data" inp.load
        inp.ioFailAfter).headers = some hs →
      validate_data (create_table_from_csv ⟨inp.init, inp.init⟩ "csv_data" inp.load
        inp.ioFailAfter).conn hs inp.valIoFail = none →
      (mainRun inp).events = [Ev.acquire,
        Ev.loadOk (create_table_from_csv ⟨inp.init, inp.init⟩ "csv_data" inp.load
          inp.ioFailAfter).rowCount,
        Ev.valFail, Ev.close] ∧
      (mainRun inp).report = none) ∧
    ((mainRun inp).persisted = inp.init ∨
      (mainRun inp).persisted = none ∨
      ∃ hdr data, inp.load = LoadInput.ok (hdr :: data) ∧
        ((mainRun inp).persisted = some ⟨clean_headers hdr, []⟩ ∨
         (mainRun inp).persisted =
           some ⟨clean_headers hdr, data.map (normalizeRow (clean_headers hdr).length)⟩)) := by
  have hmain : mainRun inp =
      ⟨Ev.acquire :: (mainBody inp ⟨inp.init, inp.init⟩).events ++ [Ev.close],
        (mainBody inp ⟨inp.init, inp.init⟩).conn.committed,
        (mainBody inp ⟨inp.init, inp.init⟩).report, true,
        (mainBody inp ⟨inp.init, inp.init⟩).exc⟩ := by
    simp [mainRun, hf, hc]
  refine ⟨?_, ?_, ?_⟩
  · intro hnone
    have hbody : mainBody inp ⟨inp.init, inp.init⟩ =
        ⟨[Ev.loadFail],
          (create_table_from_csv ⟨inp.init, inp.init⟩ "csv_data" inp.load
            inp.ioFailAfter).conn, none, false⟩ := by
      simp only [mainBody, hx, reduceCtorEq, if_false]
      simp only [hnone]
    rw [hmain, hbody]
    exact ⟨rfl, rfl⟩
  · intro hs hsome hvalnone
    have hbody : mainBody inp ⟨inp.init, inp.init⟩ =
        ⟨[Ev.loadOk (create_table_from_csv ⟨inp.init, inp.init⟩ "csv_data" inp.load
            inp.ioFailAfter).rowCount, Ev.valFail],
          (create_table_from_csv ⟨inp.init, inp.init⟩ "csv_data" inp.load
            inp.ioFailAfter).conn, none, false⟩ := by
      simp only [mainBody, hx, reduceCtorEq, if_false]
      simp only [hsome, hvalnone]
    rw [hmain, hbody]
    exact ⟨rfl, rfl⟩
  · rcases mainBody_conn inp ⟨inp.init, inp.init⟩ with hcn | hcn
    · left
      rw [hmain]
      rw [hcn]
    · cases hh : (create_table_from_csv ⟨inp.init, inp.init⟩ "csv_data" inp.load
        inp.ioFailAfter).headers with
      | none =>
        rcases create_fail_committed ⟨inp.init, inp.init⟩ "csv_data" inp.load
          inp.ioFailAfter hh with hcm | hcm | ⟨hdr, data, hinp, hcm⟩
        · left
          rw [hmain, hcn]
          exact hcm
        · right
          left
          rw [hmain, hcn]
          exact hcm
        · right
          right
          exact ⟨hdr, data, hinp, Or.inl (by rw [hmain, hcn]; exact hcm)⟩
      | some hs =>
        obtain ⟨hdr, data, hinp, hhs, hconn, hcount⟩ :=
          create_headers_some ⟨inp.init, inp.init⟩ "csv_data" inp.load inp.ioFailAfter hs hh
        right
        right
        refine ⟨hdr, data, hinp, Or.inr ?_⟩
        rw [hmain]
        rw [hcn, hconn, hhs]

/-- Witness for `c5_failure_aborts_atomic`: a failing-load run goes
straight from the load failure to Close, reporting nothing. -/
theorem c5_failure_aborts_atomic_witness :
    ((mainRun ⟨true, true, LoadInput.missing, none, false, false, none,
        some ⟨["old"], [["v"]]⟩⟩).events = [Ev.acquire, Ev.loadFail, Ev.close]) ∧
    ((mainRun ⟨true, true, LoadInput.missing, none, false, false, none,
        some ⟨["old"], [["v"]]⟩⟩).report = none) :=
  (c5_failure_aborts_atomic
    ⟨true, true, LoadInput.missing, none, false, false, none,
      some ⟨["old"], [["v"]]⟩⟩ rfl rfl rfl).1 rfl
